import Mathlib

/-
  Shallow embedding of src/packages/plugin-mode-query/src/index.ts.

  The plugin exposes three action handlers (getBalance, getLatestBlock,
  getTransactions).  Each handler is modelled as a pure function from its
  inputs — whether a completion callback was supplied, the incoming message
  text, the options bag's optional address, and the outcome of the single
  outbound HTTP GET — to the list of observable events it performs, in order.
  Events record the HTTP requests issued and the callback invocations
  (logging via console.log / elizaLogger is not observable in the model,
  but the control-flow effect of evaluating a log argument that throws a
  TypeError in JavaScript IS modelled, because it diverts execution to the
  catch block).

  JavaScript semantics modelled explicitly:
  - `x || d` on an optional string is falsy exactly when x is undefined or
    the empty string (jsOrS);
  - a template literal interpolating undefined renders "undefined"
    (jsTemplate);
  - property or index access on undefined throws a TypeError, caught by the
    handler's try/catch; the exact TypeError text is engine dependent, so it
    is modelled by fixed representative strings (throwMsg...);
  - `Number(wei) / 1e18` followed by `.toFixed(5)` is modelled with exact
    integer arithmetic, rounding half up to 5 decimal places (formatBalance);
    this coincides with the IEEE-754 double evaluation for the values used
    in this development (decimal integers below 2 to the 53rd power, and the
    exactly representable 10 to the 18th power).
-/

namespace ModeQuery

/-- JavaScript `x || d` for an optional string x: undefined and the empty
string are falsy and select the default. -/
def jsOrS : Option String → String → String
  | some s, d => if s = "" then d else s
  | none, d => d

/-- JavaScript template-literal interpolation of an optional string:
undefined renders as the text "undefined". -/
def jsTemplate : Option String → String
  | some s => s
  | none => "undefined"

/-- Hexadecimal digit class of the regex character class [a-fA-F0-9]. -/
def isHexDigit (c : Char) : Bool :=
  ('0' ≤ c && c ≤ '9') || ('a' ≤ c && c ≤ 'f') || ('A' ≤ c && c ≤ 'F')

/-- The regex /0x[a-fA-F0-9]\x7b40\x7d/ anchored at the head of the
character list: a literal '0', a literal 'x', then at least 40 characters
of which the first 40 are hexadecimal digits. -/
def matchesHere : List Char → Bool
  | '0' :: 'x' :: rest => 40 ≤ rest.length && (rest.take 40).all isHexDigit
  | _ => false

/-- JavaScript String.match with a non-global regex: scan positions left to
right and return the leftmost match (here always 42 characters). -/
def extractFrom : List Char → Option String
  | [] => none
  | c :: rest =>
    if matchesHere (c :: rest) then some (String.mk ((c :: rest).take 42))
    else extractFrom rest

/-- Line 71 / 193: message.content.text.match(regex), first match or none. -/
def extractAddress (text : String) : Option String :=
  extractFrom text.data

/-- Line 72 / 194: addressMatch ? addressMatch[0] : options?.address. -/
def resolveAddress (text : String) (optAddress : Option String) : Option String :=
  match extractAddress text with
  | some a => some a
  | none => optAddress

/-- Base URL of the explorer API (line 12). -/
def BLOCKSCOUT_API : String := "https://explorer.mode.network/api"

/-- Observable actions of one handler invocation, in program order. -/
inductive Event where
  | get (url : String)
  | reply (text : String)
deriving DecidableEq

/-- Texts of the callback invocations of a trace, in order. -/
def replies : List Event → List String
  | [] => []
  | Event.reply t :: tr => t :: replies tr
  | Event.get _ :: tr => replies tr

/-- URLs of the HTTP GET requests of a trace, in order. -/
def requests : List Event → List String
  | [] => []
  | Event.get u :: tr => u :: requests tr
  | Event.reply _ :: tr => requests tr

/-- The no-address prompt (lines 76 and 198). -/
def promptText : String := "Please provide a valid Mode network address"

/-- Representative TypeError text for reading .items of a falsy
response.data (line 140 with response.data absent). -/
def throwMsgItemsOfFalsyData : String :=
  "TypeError: cannot read items of undefined"

/-- Representative TypeError text for indexing [0] on an undefined items
field (line 140 with response.data.items absent). -/
def throwMsgIndexZeroOfUndefined : String :=
  "TypeError: cannot read index 0 of undefined"

/-- Representative TypeError text for reading .height of undefined
(line 150 with an empty items list, so items[0] is undefined). -/
def throwMsgHeightOfUndefined : String :=
  "TypeError: cannot read height of undefined"

/-- Decimal-integer JavaScript Number parsing, restricted to the nonempty
all-digit strings the explorer returns for balances; every other string is
modelled as NaN (none). -/
def parseDigits (s : String) : Option Nat :=
  if s.length ≠ 0 && s.data.all (fun c => '0' ≤ c && c ≤ '9') then
    some (s.data.foldl (fun n c => 10 * n + (c.toNat - '0'.toNat)) 0)
  else none

/-- Left-pad a digit string with zeros to width 5. -/
def padZeros5 (s : String) : String :=
  String.mk (List.replicate (5 - s.length) '0') ++ s

/-- Line 91: (Number(balanceInWei) / 1e18).toFixed(5), modelled with exact
integer arithmetic: round wei divided by 10 to the 18th half-up to 5
decimal places and print with a fixed 5-digit fraction. -/
def formatBalance (wei : String) : String :=
  match parseDigits wei with
  | none => "NaN"
  | some w =>
    let n : Nat := (2 * w * 100000 + 1000000000000000000) / 2000000000000000000
    toString (n / 100000) ++ "." ++ padZeros5 (toString (n % 100000))

/-- Envelope of GET /v2/addresses/(address) as the balance handler reads
it: a status string, an optional message, an optional coin_balance. -/
structure AddressBalanceEnvelope where
  status : String
  message : Option String
  coin_balance : Option String
deriving DecidableEq

/-- One element of the blocks envelope's items array; every field the
handler reads may be absent. -/
structure BlockItem where
  height : Option String
  timestamp : Option String
  hash : Option String
deriving DecidableEq

/-- Envelope of GET /v2/blocks as the latest-block handler reads it; the
items field itself may be absent. -/
structure BlocksEnvelope where
  status : String
  message : Option String
  items : Option (List BlockItem)
deriving DecidableEq

/-- One element of the transactions list; fields may be absent. -/
structure TransactionItem where
  hash : Option String
  value : Option String
  timestamp : Option String
deriving DecidableEq

/-- The data payload of the transactions envelope; its items field may be
absent. -/
structure TransactionsData where
  items : Option (List TransactionItem)
deriving DecidableEq

/-- Envelope of GET /v2/addresses/(address)/transactions as the
transactions handler reads it; the data payload may be absent. -/
structure TransactionsEnvelope where
  status : String
  message : Option String
  data : Option TransactionsData
deriving DecidableEq

/-- Outcome of the awaited axios.get: a rejection with an error message, a
fulfilled response whose data is falsy (none), or a parsed envelope. -/
abbrev HttpOutcome (α : Type) := Except String (Option α)

/-- Line 96: the balance success reply. -/
def balanceSuccessText (address : String) (env : AddressBalanceEnvelope) : String :=
  "The balance for " ++ address ++ " is "
    ++ formatBalance (jsOrS env.coin_balance "2") ++ " ETH"

/-- Line 150: the block rendering, substituting N/A for missing fields. -/
def blockSuccessText (b : BlockItem) : String :=
  "Latest block:\nNumber: " ++ jsOrS b.height "N/A"
    ++ "\nTimestamp: " ++ jsOrS b.timestamp "N/A"
    ++ "\nHash: " ++ jsOrS b.hash "N/A"

/-- Line 223: one transaction rendered as three lines. -/
def renderTransaction (tx : TransactionItem) : String :=
  "Hash: " ++ jsTemplate tx.hash
    ++ "\nValue: " ++ jsOrS tx.value "0" ++ " ETH"
    ++ "\nTimestamp: " ++ jsOrS tx.timestamp "N/A"

/-- Lines 212-227: the transactions success-path reply text: the
no-transactions text when the resolved list is empty, otherwise the header
and the first 5 entries joined by blank lines. -/
def txSuccessReply (address : String) (env : TransactionsEnvelope) : String :=
  let transactions := (env.data.bind TransactionsData.items).getD []
  if transactions.length = 0 then
    "No transactions found for " ++ address
  else
    "Recent transactions for " ++ address ++ ":\n\n"
      ++ String.intercalate "\n\n" ((transactions.take 5).map renderTransaction)

/-- Lines 61-104: the getBalance handler.  Early return without a callback;
address from the text match or the options bag, with the JavaScript falsy
check on it; then the GET; the (inverted) failure check
(!response.data || response.data.status == 'success') at line 83; otherwise
the balance reply.  A rejected GET lands in the catch block at line 98. -/
def getBalanceHandler (cb : Bool) (text : String) (optAddress : Option String)
    (http : HttpOutcome AddressBalanceEnvelope) : List Event :=
  if cb then
    match resolveAddress text optAddress with
    | none => [Event.reply promptText]
    | some address =>
      if address = "" then [Event.reply promptText]
      else
        Event.get (BLOCKSCOUT_API ++ "/v2/addresses/" ++ address) ::
        match http with
        | Except.error msg => [Event.reply ("Failed to fetch balance: " ++ msg)]
        | Except.ok none => [Event.reply "Failed to fetch balance"]
        | Except.ok (some env) =>
          if env.status = "success" then
            [Event.reply (jsOrS env.message "Failed to fetch balance")]
          else
            [Event.reply (balanceSuccessText address env)]
  else []

/-- Lines 129-158: the getLatestBlock handler.  Note line 140 evaluates
console.log(response.data.items[0]) BEFORE the line 141 check, so a falsy
response.data or an absent items field throws there and is answered from
the catch block; with items present, the (inverted) check
(!response.data || response.data.status == 'success') reports failure on
status 'success'; otherwise items[0] is rendered, and an empty items list
makes block.height throw into the catch block. -/
def getLatestBlockHandler (cb : Bool) (http : HttpOutcome BlocksEnvelope) :
    List Event :=
  if cb then
    Event.get (BLOCKSCOUT_API ++ "/v2/blocks") ::
    match http with
    | Except.error msg => [Event.reply ("Failed to fetch latest block: " ++ msg)]
    | Except.ok none =>
      [Event.reply ("Failed to fetch latest block: " ++ throwMsgItemsOfFalsyData)]
    | Except.ok (some env) =>
      match env.items with
      | none =>
        [Event.reply ("Failed to fetch latest block: " ++ throwMsgIndexZeroOfUndefined)]
      | some items =>
        if env.status = "success" then
          [Event.reply (jsOrS env.message "Failed to fetch latest block")]
        else
          match items with
          | [] =>
            [Event.reply ("Failed to fetch latest block: " ++ throwMsgHeightOfUndefined)]
          | b :: _ => [Event.reply (blockSuccessText b)]
  else []

/-- Lines 183-235: the getTransactions handler.  Same address resolution as
getBalance; the line 205 check (!response.data || response.data.status !==
'success') is the non-inverted one; on success the list
response.data.data?.items || [] is rendered by txSuccessReply. -/
def getTransactionsHandler (cb : Bool) (text : String) (optAddress : Option String)
    (http : HttpOutcome TransactionsEnvelope) : List Event :=
  if cb then
    match resolveAddress text optAddress with
    | none => [Event.reply promptText]
    | some address =>
      if address = "" then [Event.reply promptText]
      else
        Event.get (BLOCKSCOUT_API ++ "/v2/addresses/" ++ address ++ "/transactions") ::
        match http with
        | Except.error msg => [Event.reply ("Failed to fetch transactions: " ++ msg)]
        | Except.ok none => [Event.reply "Failed to fetch transactions"]
        | Except.ok (some env) =>
          if env.status ≠ "success" then
            [Event.reply (jsOrS env.message "Failed to fetch transactions")]
          else
            [Event.reply (txSuccessReply address env)]
  else []

/-! Concrete fixtures used to evaluate the handlers on sample inputs. -/

/-- A well-formed sample address, also used as a message text consisting of
exactly that address. -/
def sampleAddress : String := "0x742d35Cc6634C0532925a3b844Bc454e4438f44e"

/-- A balance envelope with a non-success status, a message and a balance. -/
def balEnvOk : AddressBalanceEnvelope :=
  { status := "ok", message := some "m", coin_balance := some "5" }

/-- A balance envelope with status success carrying exactly one ether. -/
def balEnvSuccess1e18 : AddressBalanceEnvelope :=
  { status := "success", message := none,
    coin_balance := some "1000000000000000000" }

/-- A balance envelope with a non-success status and no coin_balance. -/
def balEnvNoCoin : AddressBalanceEnvelope :=
  { status := "ok", message := none, coin_balance := none }

/-- A block item with every field absent. -/
def blockItemEmpty : BlockItem :=
  { height := none, timestamp := none, hash := none }

/-- A blocks envelope with status success and one item. -/
def blocksEnvSuccessItem : BlocksEnvelope :=
  { status := "success", message := some "m2", items := some [blockItemEmpty] }

/-- A blocks envelope with status success, a message, and no items field. -/
def blocksEnvSuccessNoItems : BlocksEnvelope :=
  { status := "success", message := some "boom", items := none }

/-- A blocks envelope with a non-success status and no items field. -/
def blocksEnvErrorNoItems : BlocksEnvelope :=
  { status := "error", message := none, items := none }

/-- A transactions envelope with status success and an empty items list. -/
def txEnvSuccessEmpty : TransactionsEnvelope :=
  { status := "success", message := none, data := some { items := some [] } }

/-- Seven transaction items, the second with value and timestamp absent. -/
def sampleTxItems : List TransactionItem :=
  [{ hash := some "h1", value := some "1", timestamp := some "t1" },
   { hash := some "h2", value := none, timestamp := none },
   { hash := some "h3", value := some "3", timestamp := some "t3" },
   { hash := some "h4", value := some "4", timestamp := some "t4" },
   { hash := some "h5", value := some "5", timestamp := some "t5" },
   { hash := some "h6", value := some "6", timestamp := some "t6" },
   { hash := some "h7", value := some "7", timestamp := some "t7" }]

/-- A transactions envelope with status success carrying the seven items. -/
def txEnvSuccess7 : TransactionsEnvelope :=
  { status := "success", message := none,
    data := some { items := some sampleTxItems } }

/-! Helper lemmas about the address extractor. -/

theorem matchesHere_nil : matchesHere [] = false := rfl

/-- If no position of the text matches the address pattern, the extractor
returns none. -/
theorem extractFrom_eq_none (l : List Char)
    (h : ∀ i, matchesHere (l.drop i) = false) : extractFrom l = none := by
  induction l with
  | nil => rfl
  | cons c rest ih =>
    have h0 : matchesHere (c :: rest) = false := by simpa using h 0
    have hrest : ∀ i, matchesHere (rest.drop i) = false := by
      intro i
      have := h (i + 1)
      rwa [List.drop_succ_cons] at this
    simp only [extractFrom, h0, Bool.false_eq_true, if_false]
    exact ih hrest

/-- Reduce the unbounded no-match hypothesis to the decidable bounded one:
past the end of the list every suffix is empty and cannot match. -/
theorem noMatchAll (l : List Char)
    (h : ∀ i, i < l.length → matchesHere (l.drop i) = false) :
    ∀ i, matchesHere (l.drop i) = false := by
  intro i
  rcases Nat.lt_or_ge i l.length with hi | hi
  · exact h i hi
  · rw [List.drop_eq_nil_of_le hi]
    rfl

/-- The extractor scan returns the match at the least matching position. -/
theorem extractFrom_first (l : List Char) :
    ∀ j : Nat, (∀ k, k < j → matchesHere (l.drop k) = false) →
      matchesHere (l.drop j) = true →
      extractFrom l = some (String.mk ((l.drop j).take 42)) := by
  induction l with
  | nil =>
    intro j _ hj
    rw [List.drop_nil] at hj
    exact absurd hj (by decide)
  | cons c rest ih =>
    intro j hmin hj
    cases j with
    | zero =>
      simp only [List.drop_zero] at hj ⊢
      simp [extractFrom, hj]
    | succ j' =>
      have h0 : matchesHere (c :: rest) = false := by
        simpa using hmin 0 (Nat.succ_pos j')
      rw [List.drop_succ_cons] at hj
      have hmin' : ∀ k, k < j' → matchesHere (rest.drop k) = false := by
        intro k hk
        have := hmin (k + 1) (Nat.succ_lt_succ hk)
        rwa [List.drop_succ_cons] at this
      rw [List.drop_succ_cons]
      simp only [extractFrom, h0, Bool.false_eq_true, if_false]
      exact ih j' hmin' hj

/-- Within one handler invocation, the requests issued on each branch once
an address a resolved (balance handler). -/
theorem requests_balance (text : String) (opt : Option String) (a : String)
    (http : HttpOutcome AddressBalanceEnvelope)
    (ha : resolveAddress text opt = some a) (ha2 : a ≠ "") :
    requests (getBalanceHandler true text opt http) =
      [BLOCKSCOUT_API ++ "/v2/addresses/" ++ a] := by
  rcases http with m | d
  · simp [getBalanceHandler, ha, ha2, requests]
  · rcases d with _ | env
    · simp [getBalanceHandler, ha, ha2, requests]
    · by_cases hs : env.status = "success" <;>
        simp [getBalanceHandler, ha, ha2, hs, requests]

/-- Within one handler invocation, the requests issued on each branch once
an address a resolved (transactions handler). -/
theorem requests_transactions (text : String) (opt : Option String) (a : String)
    (http : HttpOutcome TransactionsEnvelope)
    (ha : resolveAddress text opt = some a) (ha2 : a ≠ "") :
    requests (getTransactionsHandler true text opt http) =
      [BLOCKSCOUT_API ++ "/v2/addresses/" ++ a ++ "/transactions"] := by
  rcases http with m | d
  · simp [getTransactionsHandler, ha, ha2, requests]
  · rcases d with _ | env
    · simp [getTransactionsHandler, ha, ha2, requests]
    · by_cases hs : env.status = "success" <;>
        simp [getTransactionsHandler, ha, ha2, hs, requests]

/-! Claim theorems. -/

/-- C1 (amended): the failure-reporting condition is inconsistent across
the three handlers.  In the balance handler the callback receives the
failure text (the envelope message, or the generic fallback) exactly when
the envelope is absent or its status equals success; the transactions
handler receives it exactly when the envelope is absent or its status is
not success; the latest-block handler matches the balance handler's
inverted condition only when the envelope and its items field are present,
because the pre-check debug log indexes items[0] and so an absent envelope
or items field throws into the catch block instead. -/
theorem C1_failure_reporting_conditions
    (text : String) (opt : Option String) (a : String)
    (balEnv : AddressBalanceEnvelope) (txEnv : TransactionsEnvelope)
    (bEnv : BlocksEnvelope) (b : BlockItem) (bs : List BlockItem)
    (ha : resolveAddress text opt = some a) (ha2 : a ≠ "")
    (hitems : bEnv.items = some (b :: bs)) :
    replies (getBalanceHandler true text opt (Except.ok (some balEnv))) =
      [if balEnv.status = "success" then jsOrS balEnv.message "Failed to fetch balance"
       else balanceSuccessText a balEnv] ∧
    replies (getBalanceHandler true text opt (Except.ok none)) =
      ["Failed to fetch balance"] ∧
    replies (getLatestBlockHandler true (Except.ok (some bEnv))) =
      [if bEnv.status = "success" then jsOrS bEnv.message "Failed to fetch latest block"
       else blockSuccessText b] ∧
    replies (getLatestBlockHandler true (Except.ok none)) =
      ["Failed to fetch latest block: " ++ throwMsgItemsOfFalsyData] ∧
    replies (getTransactionsHandler true text opt (Except.ok (some txEnv))) =
      [if txEnv.status ≠ "success" then jsOrS txEnv.message "Failed to fetch transactions"
       else txSuccessReply a txEnv] ∧
    replies (getTransactionsHandler true text opt (Except.ok none)) =
      ["Failed to fetch transactions"] := by
  refine ⟨?_, ?_, ?_, ?_, ?_, ?_⟩
  · by_cases hs : balEnv.status = "success" <;>
      simp [getBalanceHandler, ha, ha2, hs, replies]
  · simp [getBalanceHandler, ha, ha2, replies]
  · by_cases hs : bEnv.status = "success" <;>
      simp [getLatestBlockHandler, hitems, hs, replies]
  · simp [getLatestBlockHandler, replies]
  · by_cases hs : txEnv.status = "success" <;>
      simp [getTransactionsHandler, ha, ha2, hs, replies]
  · simp [getTransactionsHandler, ha, ha2, replies]

/-- C1 witness: the amended characterization at a concrete invocation. -/
theorem C1_failure_reporting_conditions_witness :
    replies (getBalanceHandler true sampleAddress none (Except.ok (some balEnvOk))) =
      [if balEnvOk.status = "success"
       then jsOrS balEnvOk.message "Failed to fetch balance"
       else balanceSuccessText sampleAddress balEnvOk] ∧
    replies (getBalanceHandler true sampleAddress none (Except.ok none)) =
      ["Failed to fetch balance"] ∧
    replies (getLatestBlockHandler true (Except.ok (some blocksEnvSuccessItem))) =
      [if blocksEnvSuccessItem.status = "success"
       then jsOrS blocksEnvSuccessItem.message "Failed to fetch latest block"
       else blockSuccessText blockItemEmpty] ∧
    replies (getLatestBlockHandler true (Except.ok none)) =
      ["Failed to fetch latest block: " ++ throwMsgItemsOfFalsyData] ∧
    replies (getTransactionsHandler true sampleAddress none
        (Except.ok (some txEnvSuccessEmpty))) =
      [if txEnvSuccessEmpty.status ≠ "success"
       then jsOrS txEnvSuccessEmpty.message "Failed to fetch transactions"
       else txSuccessReply sampleAddress txEnvSuccessEmpty] ∧
    replies (getTransactionsHandler true sampleAddress none (Except.ok none)) =
      ["Failed to fetch transactions"] :=
  C1_failure_reporting_conditions sampleAddress none sampleAddress
    balEnvOk txEnvSuccessEmpty blocksEnvSuccessItem blockItemEmpty []
    (by decide) (by decide) rfl

/-- C1 counterexample: the claim as stated fails for the latest-block
handler.  With an envelope present whose status is success but whose items
field is absent, the claim predicts the callback receives the envelope
message; the code throws while evaluating the debug log of items[0] before
the status check and the callback receives the catch-block text instead. -/
theorem C1_counterexample_block_items_absent :
    replies (getLatestBlockHandler true (Except.ok (some blocksEnvSuccessNoItems))) =
      ["Failed to fetch latest block: " ++ throwMsgIndexZeroOfUndefined] ∧
    replies (getLatestBlockHandler true (Except.ok (some blocksEnvSuccessNoItems))) ≠
      [jsOrS blocksEnvSuccessNoItems.message "Failed to fetch latest block"] := by
  constructor
  · rfl
  · decide

/-- C2 (code bug): the spec says a balance envelope with status success
and coin_balance 1000000000000000000 yields a reply containing 1.00000 ETH,
and the formatting pipeline indeed maps that wei string to 1.00000; but the
inverted check at line 83 routes every status success envelope to the
failure branch, so the handler replies with the generic failure text. -/
theorem C2_inverted_success_check_bug :
    formatBalance "1000000000000000000" = "1.00000" ∧
    replies (getBalanceHandler true
        "balance of 0x742d35Cc6634C0532925a3b844Bc454e4438f44e" none
        (Except.ok (some balEnvSuccess1e18))) =
      ["Failed to fetch balance"] := by
  constructor
  · decide
  · decide

/-- C3: when no position of the message text matches the address pattern
and no options address is supplied, the balance and transactions handlers
reply only with the prompt and issue no HTTP request. -/
theorem C3_missing_address_prompt (text : String)
    (httpB : HttpOutcome AddressBalanceEnvelope)
    (httpT : HttpOutcome TransactionsEnvelope)
    (h : ∀ i, matchesHere (text.data.drop i) = false) :
    getBalanceHandler true text none httpB = [Event.reply promptText] ∧
    getTransactionsHandler true text none httpT = [Event.reply promptText] ∧
    requests (getBalanceHandler true text none httpB) = [] ∧
    requests (getTransactionsHandler true text none httpT) = [] := by
  have he : resolveAddress text none = none := by
    simp [resolveAddress, extractAddress, extractFrom_eq_none _ h]
  refine ⟨?_, ?_, ?_, ?_⟩ <;>
    simp [getBalanceHandler, getTransactionsHandler, he, requests]

/-- C3 witness: a concrete address-free text, with both a rejected and a
fulfilled HTTP outcome. -/
theorem C3_missing_address_prompt_witness :
    getBalanceHandler true "hello, no address here" none (Except.error "boom") =
      [Event.reply promptText] ∧
    getTransactionsHandler true "hello, no address here" none (Except.ok none) =
      [Event.reply promptText] ∧
    requests (getBalanceHandler true "hello, no address here" none (Except.error "boom")) = [] ∧
    requests (getTransactionsHandler true "hello, no address here" none (Except.ok none)) = [] :=
  C3_missing_address_prompt "hello, no address here" (Except.error "boom") (Except.ok none)
    (noMatchAll _ (by decide))

/-- C4: with no callback each handler performs no observable action at all,
and with a callback each handler invokes it exactly once on every path. -/
theorem C4_callback_exactly_once (text : String) (opt : Option String)
    (httpB : HttpOutcome AddressBalanceEnvelope)
    (httpBl : HttpOutcome BlocksEnvelope)
    (httpT : HttpOutcome TransactionsEnvelope) :
    getBalanceHandler false text opt httpB = [] ∧
    getLatestBlockHandler false httpBl = [] ∧
    getTransactionsHandler false text opt httpT = [] ∧
    (replies (getBalanceHandler true text opt httpB)).length = 1 ∧
    (replies (getLatestBlockHandler true httpBl)).length = 1 ∧
    (replies (getTransactionsHandler true text opt httpT)).length = 1 := by
  refine ⟨rfl, rfl, rfl, ?_, ?_, ?_⟩
  · cases hr : resolveAddress text opt with
    | none => simp [getBalanceHandler, hr, replies]
    | some a =>
      by_cases ha : a = ""
      · simp [getBalanceHandler, hr, ha, replies]
      · rcases httpB with m | d
        · simp [getBalanceHandler, hr, ha, replies]
        · rcases d with _ | env
          · simp [getBalanceHandler, hr, ha, replies]
          · by_cases hs : env.status = "success" <;>
              simp [getBalanceHandler, hr, ha, hs, replies]
  · rcases httpBl with m | d
    · simp [getLatestBlockHandler, replies]
    · rcases d with _ | env
      · simp [getLatestBlockHandler, replies]
      · cases hi : env.items with
        | none => simp [getLatestBlockHandler, hi, replies]
        | some items =>
          by_cases hs : env.status = "success"
          · simp [getLatestBlockHandler, hi, hs, replies]
          · cases items with
            | nil => simp [getLatestBlockHandler, hi, hs, replies]
            | cons b bs => simp [getLatestBlockHandler, hi, hs, replies]
  · cases hr : resolveAddress text opt with
    | none => simp [getTransactionsHandler, hr, replies]
    | some a =>
      by_cases ha : a = ""
      · simp [getTransactionsHandler, hr, ha, replies]
      · rcases httpT with m | d
        · simp [getTransactionsHandler, hr, ha, replies]
        · rcases d with _ | env
          · simp [getTransactionsHandler, hr, ha, replies]
          · by_cases hs : env.status = "success" <;>
              simp [getTransactionsHandler, hr, ha, hs, replies]

/-- C5: on the path where the balance handler computes a balance (envelope
present, status not equal to success under the inverted check), an absent
coin_balance is substituted by the literal string 2, which divided by 10 to
the 18th and formatted to 5 decimal places reads 0.00000, so the reply
reports that formatting of 2e-18 ETH. -/
theorem C5_missing_coin_balance_substitutes_two
    (text : String) (opt : Option String) (a : String)
    (env : AddressBalanceEnvelope)
    (ha : resolveAddress text opt = some a) (ha2 : a ≠ "")
    (hs : env.status ≠ "success") (hcb : env.coin_balance = none) :
    jsOrS env.coin_balance "2" = "2" ∧
    formatBalance "2" = "0.00000" ∧
    replies (getBalanceHandler true text opt (Except.ok (some env))) =
      ["The balance for " ++ a ++ " is " ++ formatBalance "2" ++ " ETH"] := by
  refine ⟨by simp [hcb, jsOrS], by decide, ?_⟩
  simp [getBalanceHandler, ha, ha2, hs, replies, balanceSuccessText, hcb, jsOrS]

/-- C5 witness: a concrete invocation with coin_balance absent. -/
theorem C5_missing_coin_balance_substitutes_two_witness :
    jsOrS balEnvNoCoin.coin_balance "2" = "2" ∧
    formatBalance "2" = "0.00000" ∧
    replies (getBalanceHandler true sampleAddress none (Except.ok (some balEnvNoCoin))) =
      ["The balance for " ++ sampleAddress ++ " is " ++ formatBalance "2" ++ " ETH"] :=
  C5_missing_coin_balance_substitutes_two sampleAddress none sampleAddress balEnvNoCoin
    (by decide) (by decide) (by decide) rfl

/-- C6: on the transactions success path (status equals success), an empty
resolved list replies exactly with the no-transactions text, and otherwise
only the first 5 entries are rendered by renderTransaction (three lines
each, value defaulting to 0 and timestamp to N/A), joined by blank lines
under a header naming the address. -/
theorem C6_transactions_rendering (text : String) (opt : Option String)
    (a : String) (env : TransactionsEnvelope) (l : List TransactionItem)
    (ha : resolveAddress text opt = some a) (ha2 : a ≠ "")
    (hs : env.status = "success")
    (hl : (env.data.bind TransactionsData.items).getD [] = l) :
    replies (getTransactionsHandler true text opt (Except.ok (some env))) =
      [if l.length = 0 then "No transactions found for " ++ a
       else "Recent transactions for " ++ a ++ ":\n\n"
         ++ String.intercalate "\n\n" ((l.take 5).map renderTransaction)] ∧
    (l.take 5).length ≤ 5 := by
  constructor
  · simp [getTransactionsHandler, ha, ha2, hs, replies, txSuccessReply, hl]
  · simp [List.length_take]

/-- C6 witness: a concrete envelope carrying 7 transactions; the reply
renders only the first 5. -/
theorem C6_transactions_rendering_witness :
    replies (getTransactionsHandler true sampleAddress none
        (Except.ok (some txEnvSuccess7))) =
      [if sampleTxItems.length = 0 then "No transactions found for " ++ sampleAddress
       else "Recent transactions for " ++ sampleAddress ++ ":\n\n"
         ++ String.intercalate "\n\n" ((sampleTxItems.take 5).map renderTransaction)] ∧
    (sampleTxItems.take 5).length ≤ 5 :=
  C6_transactions_rendering sampleAddress none sampleAddress txEnvSuccess7 sampleTxItems
    (by decide) (by decide) rfl rfl

/-- C7: given the least position j of the text at which the address
pattern (0x followed by 40 hexadecimal characters) matches, the extractor
returns exactly the 42-character substring at j, and the handler's resolved
address is that substring regardless of the options-bag address. -/
theorem C7_extractor_first_match (l : List Char) (j : Nat) (opt : Option String)
    (hmin : ∀ k, k < j → matchesHere (l.drop k) = false)
    (hj : matchesHere (l.drop j) = true) :
    extractAddress (String.mk l) = some (String.mk ((l.drop j).take 42)) ∧
    resolveAddress (String.mk l) opt = some (String.mk ((l.drop j).take 42)) := by
  have he : extractAddress (String.mk l) = some (String.mk ((l.drop j).take 42)) :=
    extractFrom_first l j hmin hj
  exact ⟨he, by simp [resolveAddress, he]⟩

/-- C7 witness: a concrete text with surrounding words, a first match at
position 4, and an options-bag address that is ignored. -/
theorem C7_extractor_first_match_witness :
    extractAddress (String.mk ("pay 0x0123456789abcdefABCDEF0123456789abcdefAB now".data)) =
      some (String.mk
        ((("pay 0x0123456789abcdefABCDEF0123456789abcdefAB now".data).drop 4).take 42)) ∧
    resolveAddress (String.mk ("pay 0x0123456789abcdefABCDEF0123456789abcdefAB now".data))
        (some "0xignored") =
      some (String.mk
        ((("pay 0x0123456789abcdefABCDEF0123456789abcdefAB now".data).drop 4).take 42)) :=
  C7_extractor_first_match "pay 0x0123456789abcdefABCDEF0123456789abcdefAB now".data 4
    (some "0xignored") (by decide) (by decide)

/-- C8: when the HTTP call rejects with an error message, each handler
catches it and invokes the callback exactly once with the operation-specific
failed-to-fetch text followed by the message. -/
theorem C8_http_error_reply (text : String) (opt : Option String) (a m : String)
    (ha : resolveAddress text opt = some a) (ha2 : a ≠ "") :
    replies (getBalanceHandler true text opt (Except.error m)) =
      ["Failed to fetch balance: " ++ m] ∧
    replies (getLatestBlockHandler true (Except.error m)) =
      ["Failed to fetch latest block: " ++ m] ∧
    replies (getTransactionsHandler true text opt (Except.error m)) =
      ["Failed to fetch transactions: " ++ m] := by
  refine ⟨?_, ?_, ?_⟩ <;>
    simp [getBalanceHandler, getLatestBlockHandler, getTransactionsHandler,
      ha, ha2, replies]

/-- C8 witness: a concrete rejected call. -/
theorem C8_http_error_reply_witness :
    replies (getBalanceHandler true "0x742d35Cc6634C0532925a3b844Bc454e4438f44e" none
        (Except.error "network down")) =
      ["Failed to fetch balance: " ++ "network down"] ∧
    replies (getLatestBlockHandler true (Except.error "network down")) =
      ["Failed to fetch latest block: " ++ "network down"] ∧
    replies (getTransactionsHandler true "0x742d35Cc6634C0532925a3b844Bc454e4438f44e" none
        (Except.error "network down")) =
      ["Failed to fetch transactions: " ++ "network down"] :=
  C8_http_error_reply "0x742d35Cc6634C0532925a3b844Bc454e4438f44e" none
    "0x742d35Cc6634C0532925a3b844Bc454e4438f44e" "network down"
    (by decide) (by decide)

/-- C9: when the blocks envelope has a status other than success and its
items list is empty or absent, the handler does not produce an
N/A-substituted rendering: reading the first element (or indexing an absent
items field in the pre-check debug log) throws, the exception is caught,
and the callback is invoked exactly once with the failed-to-fetch text
followed by the error message. -/
theorem C9_block_empty_items_error_path (env : BlocksEnvelope)
    (hs : env.status ≠ "success")
    (hi : env.items = none ∨ env.items = some []) :
    replies (getLatestBlockHandler true (Except.ok (some env))) =
      [if env.items = none
       then "Failed to fetch latest block: " ++ throwMsgIndexZeroOfUndefined
       else "Failed to fetch latest block: " ++ throwMsgHeightOfUndefined] ∧
    (replies (getLatestBlockHandler true (Except.ok (some env)))).length = 1 := by
  rcases hi with hi | hi <;> simp [getLatestBlockHandler, hi, hs, replies]

/-- C9 witness: a concrete failing envelope with items absent. -/
theorem C9_block_empty_items_error_path_witness :
    replies (getLatestBlockHandler true (Except.ok (some blocksEnvErrorNoItems))) =
      [if blocksEnvErrorNoItems.items = none
       then "Failed to fetch latest block: " ++ throwMsgIndexZeroOfUndefined
       else "Failed to fetch latest block: " ++ throwMsgHeightOfUndefined] ∧
    (replies (getLatestBlockHandler true (Except.ok (some blocksEnvErrorNoItems)))).length = 1 :=
  C9_block_empty_items_error_path blocksEnvErrorNoItems (by decide) (by decide)

/-- C10: the options-bag address override is not shape-validated: when the
text has no pattern match, any nonempty override string is interpolated
verbatim into the request URL and the GET is issued, while the prompt is
produced exactly in the cases where the override is absent or empty. -/
theorem C10_override_not_validated (text : String) (s : String)
    (httpB : HttpOutcome AddressBalanceEnvelope)
    (httpT : HttpOutcome TransactionsEnvelope)
    (h : ∀ i, matchesHere (text.data.drop i) = false) (hs : s ≠ "") :
    requests (getBalanceHandler true text (some s) httpB) =
      [BLOCKSCOUT_API ++ "/v2/addresses/" ++ s] ∧
    requests (getTransactionsHandler true text (some s) httpT) =
      [BLOCKSCOUT_API ++ "/v2/addresses/" ++ s ++ "/transactions"] ∧
    getBalanceHandler true text none httpB = [Event.reply promptText] ∧
    getTransactionsHandler true text none httpT = [Event.reply promptText] ∧
    getBalanceHandler true text (some "") httpB = [Event.reply promptText] ∧
    getTransactionsHandler true text (some "") httpT = [Event.reply promptText] := by
  have he : extractAddress text = none :=
    extractFrom_eq_none _ h
  have hrs : resolveAddress text (some s) = some s := by simp [resolveAddress, he]
  have hrn : resolveAddress text none = none := by simp [resolveAddress, he]
  have hre : resolveAddress text (some "") = some "" := by simp [resolveAddress, he]
  refine ⟨requests_balance text (some s) s httpB hrs hs,
          requests_transactions text (some s) s httpT hrs hs, ?_, ?_, ?_, ?_⟩
  · simp [getBalanceHandler, hrn]
  · simp [getTransactionsHandler, hrn]
  · simp [getBalanceHandler, hre]
  · simp [getTransactionsHandler, hre]

/-- C10 witness: a concrete address-free text with a malformed nonempty
override. -/
theorem C10_override_not_validated_witness :
    requests (getBalanceHandler true "send funds to my usual wallet" (some "not-an-address")
        (Except.error "boom")) =
      [BLOCKSCOUT_API ++ "/v2/addresses/" ++ "not-an-address"] ∧
    requests (getTransactionsHandler true "send funds to my usual wallet" (some "not-an-address")
        (Except.ok none)) =
      [BLOCKSCOUT_API ++ "/v2/addresses/" ++ "not-an-address" ++ "/transactions"] ∧
    getBalanceHandler true "send funds to my usual wallet" none (Except.error "boom") =
      [Event.reply promptText] ∧
    getTransactionsHandler true "send funds to my usual wallet" none (Except.ok none) =
      [Event.reply promptText] ∧
    getBalanceHandler true "send funds to my usual wallet" (some "") (Except.error "boom") =
      [Event.reply promptText] ∧
    getTransactionsHandler true "send funds to my usual wallet" (some "") (Except.ok none) =
      [Event.reply promptText] :=
  C10_override_not_validated "send funds to my usual wallet" "not-an-address"
    (Except.error "boom") (Except.ok none) (noMatchAll _ (by decide)) (by decide)

end ModeQuery
